import Mathlib

/-!
Verification of the ElectricalThermostat repository.

This file gives a shallow embedding of the core data structures and
operations of the program (the sorted linked-list sample window, stale-sample
eviction, the fast/slow median walk, the timeout test, the alert-publishing
step of the main loop, the annunciator loop body, and the table-driven state
machine) and proves or refutes the frozen claims about them.

Modelling conventions:
* the singly linked list of `Node`s is modelled as a `List Pulse`;
* `uint64_t` is modelled as `Nat` taken modulo `2 ^ 64` where the program
  relies on unsigned wraparound (`IsTimeout`);
* `unsigned short` pulse widths are modelled as `Nat`;
* `double` is modelled as `ℚ`: every value the program feeds into a `double`
  here is a small integer or a half-integer, represented exactly;
* a heap pointer that may be `NULL` (the result of `MakeNode`) is modelled as
  an `Option Pulse`.
-/

namespace Thermostat

/-- `ONE_SEC` from functions.h. -/
def ONE_SEC : Nat := 1000

/-- `2 ^ 64`, the modulus of `uint64_t` arithmetic. -/
def U64 : Nat := 2 ^ 64

/-- The `Pulse` struct from functions.h: a validity bit, a pulse width
(`unsigned short`), a derived temperature (`double`) and an arrival
timestamp in milliseconds (`uint64_t`). -/
structure Pulse where
  valid : Bool
  width : Nat
  temp : ℚ
  timestamp : Nat
deriving DecidableEq

/-- The staleness test of `DeleteStalePulses` (functions.cpp line 93/104):
a pulse is stale relative to reference timestamp `T` when
`pulse.timestamp + ONE_SEC < T`. -/
def isStale (T : Nat) (p : Pulse) : Bool :=
  decide (p.timestamp + ONE_SEC < T)

/-- `MakeNode` (functions.cpp lines 39-50): allocates a node holding the
pulse, or returns `NULL` when `malloc` fails.  The allocator's success is an
explicit parameter `allocOk`; the node is modelled by the pulse it carries
(the code sets `next = NULL`, which the list embedding absorbs). -/
def MakeNode (allocOk : Bool) (pulse : Pulse) : Option Pulse :=
  if allocOk then some pulse else none

/-- The insertion walk of `InsertPulse` (functions.cpp lines 59-76) on a
non-null node carrying `p`: if the list is empty or the head's width is
`>=` the new width, the node is prepended; otherwise the walk advances while
the next node's width is `< p.width` and splices the node in before the
first node whose width is `>= p.width`. -/
def insertWalk (p : Pulse) : List Pulse → List Pulse
  | [] => [p]
  | q :: rest =>
      if q.width ≥ p.width then p :: q :: rest
      else q :: insertWalk p rest

/-- `InsertPulse` (functions.cpp lines 54-78): a `NULL` node pointer is a
no-op (line 56 guards the whole body); otherwise the node is spliced into
the list in ascending width order. -/
def InsertPulse (l : List Pulse) (node : Option Pulse) : List Pulse :=
  match node with
  | none => l
  | some p => insertWalk p l

/-- The second loop of `DeleteStalePulses` (functions.cpp lines 100-119):
walks the list with a trailing `prev` pointer and splices out every stale
node.  On entry the head is never stale (the first loop removed the stale
front run), so the splice `prev->next = curr->next` always has a surviving
predecessor; the net list is exactly the recursion below. -/
def evictLoop (T : Nat) : List Pulse → List Pulse
  | [] => []
  | p :: rest =>
      if isStale T p then evictLoop T rest
      else p :: evictLoop T rest

/-- `DeleteStalePulses` (functions.cpp lines 85-124): the first loop
advances (and frees) the head over the stale front run, the second loop
splices out the remaining stale nodes, and the updated head is returned. -/
def DeleteStalePulses (l : List Pulse) (timestamp : Nat) : List Pulse :=
  evictLoop timestamp (l.dropWhile (isStale timestamp))

/-- The node chain still reachable from `main`'s `head_ptr` after the call
`DeleteStalePulses(head_ptr, pulse, fptr)` at main.cpp line 95.  The call's
returned head is discarded (functions.h even declares the function `void`),
so `head_ptr` keeps its old value: the freed front-run nodes, whose `next`
fields the function never touches, are still chained in front of the
correctly spliced remainder.  (Freed memory is modelled as bitwise intact;
in C this traversal is a use after free.) -/
def mainEvictedView (l : List Pulse) (timestamp : Nat) : List Pulse :=
  l.takeWhile (isStale timestamp) ++ DeleteStalePulses l timestamp

/-- The width of the pulse at the head of a list, as the `double` the median
code reads through a node pointer; `0` on the empty list (unreachable in the
calls `FindMedian` makes). -/
def headWidth : List Pulse → ℚ
  | [] => 0
  | p :: _ => (p.width : ℚ)

/-- The fast/slow walk of `FindMedian` (functions.cpp lines 157-173),
with the three pointers `slow_ptr_prev`, `slow_ptr`, `fast_ptr` modelled as
the list suffixes they point into.  When the fast pointer runs out on an
even-length list the median is the mean of the slow node and its
predecessor; when one node remains ahead of the fast pointer the list length
is odd and the slow node is the middle element. -/
def medianWalk : List Pulse → List Pulse → List Pulse → ℚ
  | slowPrev, slow, [] => (headWidth slow + headWidth slowPrev) / 2
  | _, slow, [_] => headWidth slow
  | _, slow, _ :: _ :: fastRest => medianWalk slow slow.tail fastRest

/-- `FindMedian` (functions.cpp lines 147-177): `median` starts at `0`; on a
non-empty list all three pointers start at the head and the fast/slow walk
runs. -/
def FindMedian : List Pulse → ℚ
  | [] => 0
  | p :: rest => medianWalk (p :: rest) (p :: rest) (p :: rest)

/-- `IsTimeout` (functions.cpp lines 212-215):
`(current_time - start_time) >= limit_time` over `uint64_t`, i.e. the
difference is taken modulo `2 ^ 64`.  Arguments are the `Nat` values of the
`uint64_t` inputs (reduced modulo `2 ^ 64` so the definition is total). -/
def IsTimeout (current_time start_time limit_time : Nat) : Bool :=
  decide (limit_time ≤ (current_time % U64 + (U64 - start_time % U64)) % U64)

/-- `STATE_ENUM` from state_machine.h. -/
inductive STATE_ENUM where
  | STATE_WARNING_ON
  | STATE_WARNING_OFF
deriving DecidableEq

export STATE_ENUM (STATE_WARNING_ON STATE_WARNING_OFF)

/-- `EVENT_ENUM` from state_machine.h. -/
inductive EVENT_ENUM where
  | EVENT_ANY
  | EVENT_WARNING_ON
  | EVENT_WARNING_OFF
deriving DecidableEq

export EVENT_ENUM (EVENT_ANY EVENT_WARNING_ON EVENT_WARNING_OFF)

/-- A row of the state transition matrix
(`STATE_TRANSITION_MATRIX_ROW_STRUCT`, state_machine.cpp lines 32-37). -/
structure TransitionRow where
  curr_state : STATE_ENUM
  event : EVENT_ENUM
  next_state : STATE_ENUM

/-- `state_transition_matrix` (state_machine.cpp lines 42-48): the two rows
`(STATE_WARNING_OFF, EVENT_WARNING_ON) → STATE_WARNING_ON` and
`(STATE_WARNING_ON, EVENT_WARNING_OFF) → STATE_WARNING_OFF`. -/
def state_transition_matrix : List TransitionRow :=
  [⟨STATE_WARNING_OFF, EVENT_WARNING_ON, STATE_WARNING_ON⟩,
   ⟨STATE_WARNING_ON, EVENT_WARNING_OFF, STATE_WARNING_OFF⟩]

/-- `Init` (state_machine.cpp lines 51-55): the initial state is
`STATE_WARNING_OFF`. -/
def Init : STATE_ENUM := STATE_WARNING_OFF

/-- `Transition` (state_machine.cpp lines 80-98): scan the transition
matrix in order for the first row whose current state matches and whose
event matches the fired event or is the wildcard `EVENT_ANY`; on a match
set the next state and call the state function indexed by that next state,
then break.  The result is the new current state together with the list of
state actions fired (`[next]` on a match, `[]` otherwise: on no match the
state is left unchanged and nothing is called). -/
def Transition (curr : STATE_ENUM) (event : EVENT_ENUM) :
    STATE_ENUM × List STATE_ENUM :=
  match state_transition_matrix.find?
      (fun r => r.curr_state == curr
        && (r.event == event || r.event == EVENT_ANY)) with
  | some r => (r.next_state, [r.next_state])
  | none => (curr, [])

/-- The alert bookkeeping of the main loop (main.cpp lines 109-135):
`warning_alert_flag`, `warning_alert_timestamp` and the published
`warnings_flag`. -/
structure AlertState where
  warning_alert_flag : Bool
  warning_alert_timestamp : Nat
  warnings_flag : Bool
deriving DecidableEq

/-- `temp_warning_threshold` (main.cpp line 45), as the `double` it is
promoted to in the comparison. -/
def temp_warning_threshold : ℚ := 70

/-- `warning_threshold` (main.cpp line 42): the 1000 ms sustain duration. -/
def warning_threshold : Nat := 1000

/-- The alert-publishing tail of one valid-sample iteration of the main
loop (main.cpp lines 109-135): if the freshly computed median exceeds the
threshold the alert flag is raised and the timestamp kept; otherwise the
flag is cleared and the timestamp reset to `current_time`; then
`warnings_flag` is published as
`warning_alert_flag && IsTimeout(current_time, warning_alert_timestamp,
warning_threshold)`. -/
def alertStep (s : AlertState) (temp_median : ℚ) (current_time : Nat) :
    AlertState :=
  let s1 :=
    if temp_median > temp_warning_threshold then
      { s with warning_alert_flag := true }
    else
      { s with warning_alert_flag := false,
               warning_alert_timestamp := current_time }
  { s1 with warnings_flag :=
      s1.warning_alert_flag
        && IsTimeout current_time s1.warning_alert_timestamp warning_threshold }

/-- The local state of the `GenerateWarnings` thread (main.cpp lines
210-274): the state machine's current state and the two blink
timestamps. -/
structure AnnState where
  curr_state : STATE_ENUM
  warning_on_timestamp : Nat
  warning_off_timestamp : Nat
deriving DecidableEq

/-- `warning_duration` (main.cpp line 213). -/
def warning_duration : Nat := 4

/-- One iteration of the `GenerateWarnings` loop body (main.cpp lines
232-268), reading the published flag `warnings_flag` at time
`current_time`.  When the flag is set, the current state is inspected and,
once the blink duration has elapsed, the opposite event is fired through
`Transition`; when the flag is clear the body inside the lock does nothing.
The result pairs the new thread state with the list of state actions
fired. -/
def annStep (st : AnnState) (warnings_flag : Bool) (current_time : Nat) :
    AnnState × List STATE_ENUM :=
  if warnings_flag then
    match st.curr_state with
    | STATE_WARNING_ON =>
        if IsTimeout current_time st.warning_off_timestamp warning_duration then
          let t := Transition st.curr_state EVENT_WARNING_OFF
          ({ st with curr_state := t.1, warning_on_timestamp := current_time },
           t.2)
        else (st, [])
    | STATE_WARNING_OFF =>
        if IsTimeout current_time st.warning_on_timestamp warning_duration then
          let t := Transition st.curr_state EVENT_WARNING_ON
          ({ st with curr_state := t.1, warning_off_timestamp := current_time },
           t.2)
        else (st, [])
  else (st, [])

/-- A sample as built by `GeneratePulse`: valid, with the given width and
timestamp (the derived temperature plays no role in the claims and is set
to `0`). -/
def mkPulse (w ts : Nat) : Pulse := ⟨true, w, 0, ts⟩

/-! ## Helper lemmas about the window operations -/

/-- The splice loop keeps exactly the non-stale nodes, in order. -/
theorem evictLoop_eq_filter (T : Nat) (l : List Pulse) :
    evictLoop T l = l.filter (fun p => !isStale T p) := by
  induction l with
  | nil => rfl
  | cons p rest ih =>
      by_cases h : isStale T p = true
      · simp [evictLoop, h, ih]
      · simp [evictLoop, h, ih, List.filter_cons]

/-- `DeleteStalePulses` as a whole keeps exactly the non-stale nodes, in
order: the front run dropped by the first loop consists only of stale
nodes, so dropping it and then filtering equals filtering directly. -/
theorem DeleteStalePulses_eq_filter (l : List Pulse) (T : Nat) :
    DeleteStalePulses l T = l.filter (fun p => !isStale T p) := by
  unfold DeleteStalePulses
  rw [evictLoop_eq_filter]
  conv_rhs => rw [← List.takeWhile_append_dropWhile (isStale T) l]
  rw [List.filter_append]
  have h : (l.takeWhile (isStale T)).filter (fun p => !isStale T p) = [] := by
    rw [List.filter_eq_nil_iff]
    intro a ha
    have hs := List.mem_takeWhile_imp ha
    simp [hs]
  rw [h, List.nil_append]

/-- Membership in the result of the insertion walk. -/
theorem mem_insertWalk {x p : Pulse} {l : List Pulse} :
    x ∈ insertWalk p l ↔ x = p ∨ x ∈ l := by
  induction l with
  | nil => simp [insertWalk]
  | cons q rest ih =>
      by_cases h : q.width ≥ p.width
      · simp [insertWalk, h]
      · simp [insertWalk, h, ih]
        tauto

/-- The insertion walk preserves the ascending-width sort invariant. -/
theorem insertWalk_pairwise (p : Pulse) (l : List Pulse)
    (h : l.Pairwise (fun a b => a.width ≤ b.width)) :
    (insertWalk p l).Pairwise (fun a b => a.width ≤ b.width) := by
  induction l with
  | nil => simp [insertWalk]
  | cons q rest ih =>
      rcases List.pairwise_cons.mp h with ⟨hq, hrest⟩
      by_cases hc : q.width ≥ p.width
      · rw [insertWalk, if_pos hc]
        refine List.pairwise_cons.mpr ⟨?_, h⟩
        intro b hb
        rcases List.mem_cons.mp hb with hb | hb
        · exact hb ▸ hc
        · exact le_trans hc (hq b hb)
      · rw [insertWalk, if_neg hc]
        refine List.pairwise_cons.mpr ⟨?_, ih hrest⟩
        intro b hb
        rcases mem_insertWalk.mp hb with hb | hb
        · exact hb ▸ le_of_not_le hc
        · exact hq b hb


/-- The insertion walk splices the new pulse exactly before the first node
whose width is `≥` the new width (so ties land at the earliest equal
position). -/
theorem insertWalk_eq_splice (p : Pulse) (l : List Pulse) :
    insertWalk p l
      = l.takeWhile (fun q => decide (q.width < p.width))
          ++ p :: l.dropWhile (fun q => decide (q.width < p.width)) := by
  induction l with
  | nil => rfl
  | cons q rest ih =>
      by_cases h : q.width ≥ p.width
      · have hq : ¬ q.width < p.width := not_lt.mpr h
        rw [insertWalk, if_pos h]
        simp [List.takeWhile_cons, List.dropWhile_cons, hq]
      · have hq : q.width < p.width := lt_of_not_ge h
        rw [insertWalk, if_neg h]
        simp [List.takeWhile_cons, List.dropWhile_cons, hq, ih]

/-- Dropping `n` from a tail is dropping `n + 1`. -/
theorem tail_drop_eq (l : List Pulse) (n : Nat) :
    l.tail.drop n = l.drop (n + 1) := by
  rw [← List.drop_one, List.drop_drop, Nat.add_comm]

/-- The fast/slow walk on a fast list of odd length `2k + 1` returns the
head width of `slow` after `k` drops: the middle element. -/
theorem medianWalk_odd :
    ∀ (fast slowPrev slow : List Pulse), fast.length % 2 = 1 →
      medianWalk slowPrev slow fast = headWidth (slow.drop (fast.length / 2))
  | [], _, _, h => by simp at h
  | [_], _, slow, _ => by simp [medianWalk]
  | a :: b :: fr, slowPrev, slow, h => by
      have hlen : (a :: b :: fr : List Pulse).length = fr.length + 2 := by
        simp
      rw [hlen] at h
      have hh : fr.length % 2 = 1 := by omega
      have step : medianWalk slowPrev slow (a :: b :: fr)
          = medianWalk slow slow.tail fr := rfl
      rw [step, medianWalk_odd fr slow slow.tail hh, tail_drop_eq, hlen]
      have e1 : fr.length / 2 + 1 = (fr.length + 2) / 2 := by omega
      rw [e1]

/-- The fast/slow walk on a non-empty fast list of even length `2k` returns
the mean of the slow node after `k` drops and its predecessor. -/
theorem medianWalk_even :
    ∀ (fast slowPrev slow : List Pulse), fast ≠ [] → fast.length % 2 = 0 →
      medianWalk slowPrev slow fast
        = (headWidth (slow.drop (fast.length / 2))
            + headWidth (slow.drop (fast.length / 2 - 1))) / 2
  | [], _, _, hne, _ => absurd rfl hne
  | [_], _, _, _, h => by simp at h
  | [a, b], slowPrev, slow, _, _ => by
      have step : medianWalk slowPrev slow [a, b]
          = medianWalk slow slow.tail [] := rfl
      rw [step]
      show (headWidth slow.tail + headWidth slow) / 2 = _
      norm_num [List.drop_one]
  | a :: b :: c :: fr, slowPrev, slow, _, h => by
      have hlen : (a :: b :: c :: fr : List Pulse).length = fr.length + 3 := by
        simp
      have hlen2 : (c :: fr).length = fr.length + 1 := by simp
      rw [hlen] at h
      have hodd : fr.length % 2 = 1 := by omega
      have hh : (c :: fr).length % 2 = 0 := by rw [hlen2]; omega
      have step : medianWalk slowPrev slow (a :: b :: c :: fr)
          = medianWalk slow slow.tail (c :: fr) := rfl
      rw [step, medianWalk_even (c :: fr) slow slow.tail (by simp) hh]
      rw [tail_drop_eq, tail_drop_eq, hlen, hlen2]
      have e1 : (fr.length + 1) / 2 + 1 = (fr.length + 3) / 2 := by omega
      have e2 : (fr.length + 1) / 2 - 1 + 1 = (fr.length + 3) / 2 - 1 := by
        omega
      rw [e1, e2]

/-- On non-wrapped inputs (`start ≤ current < 2^64`) the timeout test is
plain truncated subtraction. -/
theorem IsTimeout_eq_of_le (c s l : Nat) (hs : s ≤ c) (hc : c < U64) :
    IsTimeout c s l = decide (l ≤ c - s) := by
  have hU : U64 = 18446744073709551616 := by norm_num [U64]
  rw [hU] at hc
  simp only [IsTimeout, hU, decide_eq_decide]
  omega

/-- `alertStep` when the median exceeds the threshold: the alert flag is
raised, the since-timestamp is kept, and the flag is published from the
kept timestamp. -/
theorem alertStep_above (s : AlertState) (m : ℚ) (now : Nat)
    (hm : m > temp_warning_threshold) :
    alertStep s m now
      = ⟨true, s.warning_alert_timestamp,
          IsTimeout now s.warning_alert_timestamp warning_threshold⟩ := by
  simp [alertStep, hm]

/-- `alertStep` when the median is at or below the threshold: the alert
flag is cleared, the since-timestamp resets to `now`, and the published
flag is false. -/
theorem alertStep_below (s : AlertState) (m : ℚ) (now : Nat)
    (hm : ¬ m > temp_warning_threshold) :
    alertStep s m now = ⟨false, now, false⟩ := by
  simp [alertStep, hm]

/-! ## Claim theorems -/

/-- C4: `DeleteStalePulses(list, T)` removes exactly the samples with
`timestamp + 1000 < T` and no others — it returns the filter of the input
by non-staleness: every surviving sample satisfies
`timestamp + 1000 ≥ T`, every stale sample is gone from the result, and
the survivors keep their relative order (the result is a sublist of the
input).  This holds for multiple consecutive stale nodes and for stale
nodes at the head. -/
theorem DeleteStalePulses_correct (l : List Pulse) (T : Nat) :
    DeleteStalePulses l T = l.filter (fun p => !isStale T p)
      ∧ (∀ p ∈ DeleteStalePulses l T, T ≤ p.timestamp + ONE_SEC)
      ∧ (∀ p ∈ l, isStale T p = true → p ∉ DeleteStalePulses l T)
      ∧ (DeleteStalePulses l T).Sublist l := by
  have hf := DeleteStalePulses_eq_filter l T
  refine ⟨hf, ?_, ?_, ?_⟩
  · intro p hp
    rw [hf, List.mem_filter] at hp
    have h2 := hp.2
    simp only [isStale, ONE_SEC, Bool.not_eq_eq_eq_not, Bool.not_true,
      decide_eq_false_iff_not, not_lt] at h2
    simpa [ONE_SEC] using h2
  · intro p _ hstale hmem
    rw [hf, List.mem_filter, hstale] at hmem
    simp at hmem
  · rw [hf]
    exact List.filter_sublist l

/-- C4 witness: at the Scenario B input, the stale head is evicted and the
fresh sample survives. -/
theorem DeleteStalePulses_correct_witness :
    DeleteStalePulses [mkPulse 40 0, mkPulse 70 1500] 1600
      = [mkPulse 70 1500] := by
  have h := (DeleteStalePulses_correct [mkPulse 40 0, mkPulse 70 1500] 1600).1
  rw [h]
  rfl

/-- C5: starting from the empty window, after every sequence of
`InsertPulse` calls the window's widths are non-decreasing left to right;
and for any window, a new sample is spliced exactly before the first node
whose width is equal or greater (the earliest equal position for ties). -/
theorem InsertPulse_sort_invariant :
    (∀ ps : List Pulse,
        (ps.foldl (fun w p => InsertPulse w (some p)) []).Pairwise
          (fun a b => a.width ≤ b.width))
      ∧ (∀ (p : Pulse) (l : List Pulse),
          InsertPulse l (some p)
            = l.takeWhile (fun q => decide (q.width < p.width))
                ++ p :: l.dropWhile (fun q => decide (q.width < p.width))) := by
  constructor
  · have key : ∀ (ps : List Pulse) (w : List Pulse),
        w.Pairwise (fun a b => a.width ≤ b.width) →
        (ps.foldl (fun w p => InsertPulse w (some p)) w).Pairwise
          (fun a b => a.width ≤ b.width) := by
      intro ps
      induction ps with
      | nil =>
          intro w hw
          simpa using hw
      | cons p rest ih =>
          intro w hw
          simp only [List.foldl_cons]
          exact ih _ (insertWalk_pairwise p w hw)
    intro ps
    exact key ps [] (by simp)
  · intro p l
    exact insertWalk_eq_splice p l

/-- C6: for a window `v_1 .. v_n` (`headWidth (l.drop k)` reads `v_(k+1)`),
the median is `v_((n+1)/2)` when `n` is odd, the mean of `v_(n/2)` and
`v_(n/2+1)` when `n` is even, and `0` when the window is empty. -/
theorem FindMedian_median_law (l : List Pulse) :
    FindMedian ([] : List Pulse) = 0
      ∧ (l.length % 2 = 1 →
          FindMedian l = headWidth (l.drop (l.length / 2)))
      ∧ (l ≠ [] → l.length % 2 = 0 →
          FindMedian l
            = (headWidth (l.drop (l.length / 2 - 1))
                + headWidth (l.drop (l.length / 2))) / 2) := by
  refine ⟨rfl, ?_, ?_⟩
  · intro hodd
    cases l with
    | nil => simp at hodd
    | cons p rest =>
        show medianWalk (p :: rest) (p :: rest) (p :: rest) = _
        exact medianWalk_odd (p :: rest) (p :: rest) (p :: rest) hodd
  · intro hne heven
    cases l with
    | nil => exact absurd rfl hne
    | cons p rest =>
        show medianWalk (p :: rest) (p :: rest) (p :: rest) = _
        rw [medianWalk_even (p :: rest) (p :: rest) (p :: rest) (by simp) heven]
        ring

/-- C6 witness: the Scenario A window `[40, 55, 70]` has median `55`, and
the two-element window `[40, 70]` has median `55` as well. -/
theorem FindMedian_median_law_witness :
    FindMedian [mkPulse 40 0, mkPulse 55 1, mkPulse 70 2] = 55
      ∧ FindMedian [mkPulse 40 0, mkPulse 70 1] = 55 := by
  constructor
  · have h := (FindMedian_median_law
        [mkPulse 40 0, mkPulse 55 1, mkPulse 70 2]).2.1 (by decide)
    rw [h]
    decide
  · have h := (FindMedian_median_law
        [mkPulse 40 0, mkPulse 70 1]).2.2 (by decide) (by decide)
    rw [h]
    norm_num [headWidth, mkPulse]

/-- C9: when node allocation fails, `MakeNode` returns `NULL` and passing
that result to `InsertPulse` leaves the window completely unchanged; no
error is raised to the caller. -/
theorem InsertPulse_failed_alloc_noop (l : List Pulse) (p : Pulse) :
    InsertPulse l (MakeNode false p) = l ∧ InsertPulse l none = l :=
  ⟨rfl, rfl⟩

/-- C7: in a valid-sample iteration the published flag equals
`alertRaised AND (now − sinceTimestamp) ≥ 1000`, where `alertRaised` is
exactly "the freshly computed median exceeds the threshold" and the
since-timestamp is reset to `now` exactly when the median is at or below
the threshold. -/
theorem alertStep_publish_spec (s : AlertState) (m : ℚ) (now : Nat)
    (hs : s.warning_alert_timestamp ≤ now) (hn : now < U64) :
    (alertStep s m now).warning_alert_flag = decide (m > temp_warning_threshold)
      ∧ (alertStep s m now).warning_alert_timestamp
          = (if m > temp_warning_threshold then s.warning_alert_timestamp
             else now)
      ∧ (alertStep s m now).warnings_flag
          = ((alertStep s m now).warning_alert_flag
              && decide (warning_threshold
                  ≤ now - (alertStep s m now).warning_alert_timestamp)) := by
  by_cases hm : m > temp_warning_threshold
  · rw [alertStep_above s m now hm]
    refine ⟨by simp [hm], by simp [hm], ?_⟩
    show IsTimeout now s.warning_alert_timestamp warning_threshold
        = (true && decide (warning_threshold ≤ now - s.warning_alert_timestamp))
    rw [IsTimeout_eq_of_le now s.warning_alert_timestamp warning_threshold hs hn]
    simp
  · rw [alertStep_below s m now hm]
    refine ⟨by simp [hm], by simp [hm], by simp⟩

/-- C7 witness: concrete iteration at time 1500 with median 80 from the
initial alert state. -/
theorem alertStep_publish_spec_witness :
    (⟨false, 0, false⟩ : AlertState).warning_alert_timestamp ≤ 1500
      ∧ 1500 < U64
      ∧ ((alertStep ⟨false, 0, false⟩ 80 1500).warning_alert_flag
            = decide ((80 : ℚ) > temp_warning_threshold)
          ∧ (alertStep ⟨false, 0, false⟩ 80 1500).warning_alert_timestamp
              = (if (80 : ℚ) > temp_warning_threshold then
                  (⟨false, 0, false⟩ : AlertState).warning_alert_timestamp
                 else 1500)
          ∧ (alertStep ⟨false, 0, false⟩ 80 1500).warnings_flag
              = ((alertStep ⟨false, 0, false⟩ 80 1500).warning_alert_flag
                  && decide (warning_threshold
                      ≤ 1500 - (alertStep ⟨false, 0, false⟩ 80
                          1500).warning_alert_timestamp))) :=
  ⟨by norm_num, by norm_num [U64],
   alertStep_publish_spec ⟨false, 0, false⟩ 80 1500 (by norm_num)
     (by norm_num [U64])⟩

/-- C2 counterexample: start from the run's initial alert state (flag
clear, since-timestamp 0 = process start).  Evaluate at time 500 with
median 60 (at or below threshold: since resets to 500, flag stays false),
then at time 2000 with median 80.  The median crosses above the threshold
at `t0 = 2000` and stays above for the rest of the trace, yet the
published flag is already true at time 2000 — strictly before
`t0 + 1000 = 3000` — because the code measures the sustain interval from
the last *drop* (time 500), not from the crossing time `t0`.  The claim as
stated is therefore false. -/
theorem hysteresis_timing_counterexample :
    ((60 : ℚ) ≤ temp_warning_threshold)
      ∧ ((80 : ℚ) > temp_warning_threshold)
      ∧ (alertStep ⟨false, 0, false⟩ 60 500).warnings_flag = false
      ∧ (alertStep ⟨false, 0, false⟩ 60 500).warning_alert_timestamp = 500
      ∧ (alertStep (alertStep ⟨false, 0, false⟩ 60 500) 80 2000).warnings_flag
          = true
      ∧ (2000 : Nat) < 2000 + 1000 := by
  have h1 : alertStep ⟨false, 0, false⟩ 60 500 = ⟨false, 500, false⟩ :=
    alertStep_below _ _ _ (by norm_num [temp_warning_threshold])
  have h2 : alertStep ⟨false, 500, false⟩ 80 2000
      = ⟨true, 500, IsTimeout 2000 500 warning_threshold⟩ :=
    alertStep_above _ _ _ (by norm_num [temp_warning_threshold])
  refine ⟨by norm_num [temp_warning_threshold],
    by norm_num [temp_warning_threshold], ?_, ?_, ?_, by norm_num⟩
  · rw [h1]
  · rw [h1]
  · rw [h1, h2]
    decide

/-- C2 amended: the published flag becomes true only at or after
`sinceTimestamp + 1000`, where `sinceTimestamp` is the time of the most
recent at-or-below-threshold evaluation (or the process start) — at or
before any crossing time `t0`, but in general strictly earlier than `t0`;
and whenever the median is at or below the threshold at an evaluation, the
published flag is false there and the since-timestamp resets to that
evaluation's time. -/
theorem alertStep_hysteresis (s : AlertState) (m : ℚ) (now : Nat)
    (hs : s.warning_alert_timestamp ≤ now) (hn : now < U64) :
    ((alertStep s m now).warnings_flag = true →
        m > temp_warning_threshold
          ∧ s.warning_alert_timestamp + warning_threshold ≤ now
          ∧ (alertStep s m now).warning_alert_timestamp
              = s.warning_alert_timestamp)
      ∧ (m ≤ temp_warning_threshold →
          (alertStep s m now).warnings_flag = false
            ∧ (alertStep s m now).warning_alert_timestamp = now) := by
  by_cases hm : m > temp_warning_threshold
  · rw [alertStep_above s m now hm]
    constructor
    · intro hpub
      refine ⟨hm, ?_, rfl⟩
      have := hpub
      rw [show (⟨true, s.warning_alert_timestamp,
            IsTimeout now s.warning_alert_timestamp
              warning_threshold⟩ : AlertState).warnings_flag
          = IsTimeout now s.warning_alert_timestamp warning_threshold from rfl,
        IsTimeout_eq_of_le now s.warning_alert_timestamp warning_threshold hs hn,
        decide_eq_true_eq] at this
      omega
    · intro hle
      exact absurd hm (not_lt.mpr hle).elim
  · rw [alertStep_below s m now hm]
    exact ⟨by simp, fun _ => ⟨rfl, rfl⟩⟩

/-- C2 amended witness: the at-or-below branch at the concrete evaluation
time 500 with median 60. -/
theorem alertStep_hysteresis_witness :
    ((⟨false, 0, false⟩ : AlertState).warning_alert_timestamp ≤ 500
        ∧ 500 < U64)
      ∧ ((alertStep ⟨false, 0, false⟩ 60 500).warnings_flag = false
          ∧ (alertStep ⟨false, 0, false⟩ 60 500).warning_alert_timestamp
              = 500) :=
  ⟨⟨by norm_num, by norm_num [U64]⟩,
   (alertStep_hysteresis ⟨false, 0, false⟩ 60 500 (by norm_num)
       (by norm_num [U64])).2 (by norm_num [temp_warning_threshold])⟩

/-- C3 counterexample: run the annunciator from its thread-start state
(`Init = STATE_WARNING_OFF`, blink timestamps 0).  With the published flag
set at time 10 the blink duration (4 ms) has elapsed, so the loop fires
`EVENT_WARNING_ON` and the FSM moves to `STATE_WARNING_ON`.  At the next
iteration the flag is read as clear (time 20): the loop body does nothing
at all — there is no reset — so the FSM state is still `STATE_WARNING_ON`,
refuting "whenever the flag is clear the FSM state is `WARNING_OFF`". -/
theorem annunciator_clear_counterexample :
    (annStep ⟨Init, 0, 0⟩ true 10).1.curr_state = STATE_WARNING_ON
      ∧ (annStep (annStep ⟨Init, 0, 0⟩ true 10).1 false 20).1.curr_state
          = STATE_WARNING_ON
      ∧ STATE_WARNING_ON ≠ STATE_WARNING_OFF := by
  refine ⟨?_, ?_, by decide⟩
  · decide
  · decide

/-- C3 amended: an annunciator iteration that reads the published flag as
clear is a complete no-op: the FSM state and both blink timestamps are
unchanged — in particular the FSM is *not* reset to `STATE_WARNING_OFF`
but keeps whatever state it had — and no log action is fired. -/
theorem annStep_clear_noop (st : AnnState) (now : Nat) :
    annStep st false now = (st, []) := rfl

/-- C8: if no row of the transition matrix matches `(s, e)` and no row
matches `(s, EVENT_ANY)`, `Transition` leaves the state unchanged and
fires no state action; in particular `Transition` in `STATE_WARNING_OFF`
on `EVENT_WARNING_OFF` changes nothing. -/
theorem Transition_unmatched_noop (s : STATE_ENUM) (e : EVENT_ENUM)
    (h : ∀ r ∈ state_transition_matrix,
        ¬(r.curr_state = s ∧ (r.event = e ∨ r.event = EVENT_ANY))) :
    Transition s e = (s, [])
      ∧ Transition STATE_WARNING_OFF EVENT_WARNING_OFF
          = (STATE_WARNING_OFF, []) := by
  constructor
  · have hnone : state_transition_matrix.find?
        (fun r => r.curr_state == s
          && (r.event == e || r.event == EVENT_ANY)) = none := by
      rw [List.find?_eq_none]
      intro r hr
      have hh := h r hr
      simp only [Bool.and_eq_true, Bool.or_eq_true, beq_iff_eq]
      tauto
    unfold Transition
    rw [hnone]
  · decide

/-- C8 witness: the unmatched pair `(STATE_WARNING_OFF,
EVENT_WARNING_OFF)` is a silent no-op. -/
theorem Transition_unmatched_noop_witness :
    Transition STATE_WARNING_OFF EVENT_WARNING_OFF
      = (STATE_WARNING_OFF, []) :=
  (Transition_unmatched_noop STATE_WARNING_OFF EVENT_WARNING_OFF
      (by decide)).1

/-- C10: `IsTimeout` computes `((current − start) mod 2^64) ≥ limit` over
unsigned 64-bit arithmetic, and for every `current < start` with
`start − current ≤ 2^64 − limit` it reports a timeout even though
`current` precedes `start` (clock regression reads as elapsed timeout). -/
theorem IsTimeout_wraparound (c s l : Nat) (hc : c < U64) (hs : s < U64) :
    IsTimeout c s l = decide ((l : ℤ) ≤ ((c : ℤ) - (s : ℤ)) % (2 ^ 64 : ℤ))
      ∧ (c < s → s - c ≤ U64 - l → IsTimeout c s l = true) := by
  have hU : U64 = 18446744073709551616 := by norm_num [U64]
  rw [hU] at hc hs
  constructor
  · simp only [IsTimeout, hU, decide_eq_decide]
    have hM : (2 ^ 64 : ℤ) = 18446744073709551616 := by norm_num
    rw [hM]
    omega
  · intro h1 h2
    rw [hU] at h2
    simp only [IsTimeout, hU, decide_eq_true_eq]
    omega

/-- C10 witness: `current = 0`, `start = 1`, `limit = 1000`: the clock
stepped back by one millisecond and the timeout reports as expired. -/
theorem IsTimeout_wraparound_witness :
    ((0 : Nat) < U64 ∧ (1 : Nat) < U64) ∧ IsTimeout 0 1 1000 = true :=
  ⟨⟨by norm_num [U64], by norm_num [U64]⟩,
   (IsTimeout_wraparound 0 1 1000 (by norm_num [U64])
       (by norm_num [U64])).2 (by norm_num) (by norm_num [U64])⟩

/-- C1 (code bug): `main` never updates its window head after eviction.
At main.cpp line 95 the head returned by `DeleteStalePulses` is discarded
(functions.h even declares the function `void`, and the call passes the
whole `Pulse` where the `uint64_t` timestamp parameter is expected), which
contradicts the function's own contract "Returns: The updated head of the
list" in functions.cpp.  Failing input: window `[mkPulse 40 0]`, new
sample `mkPulse 70 1600` (reference timestamp 1600).  The function
correctly returns the empty list, but the chain `main` keeps using still
holds the stale, freed sample, and after the insertion the evaluator's
window still contains a sample with `timestamp + 1000 < 1600` at its
front — the claim's property fails for the window the evaluator continues
to use. -/
theorem main_keeps_stale_front :
    DeleteStalePulses [mkPulse 40 0] 1600 = []
      ∧ mainEvictedView [mkPulse 40 0] 1600 = [mkPulse 40 0]
      ∧ InsertPulse (mainEvictedView [mkPulse 40 0] 1600)
          (some (mkPulse 70 1600))
          = [mkPulse 40 0, mkPulse 70 1600]
      ∧ isStale 1600 (mkPulse 40 0) = true :=
  ⟨rfl, rfl, rfl, rfl⟩

end Thermostat
